import Mathlib

/-!
Verification of the daphne DAP aggregator core against its sources.

The Rust sources embedded here are:
* daphne/src/constants.rs  — media-type codec (DapMediaType);
* daphne/src/auth.rs       — bearer tokens and the BearerTokenProvider trait;
* daphne_worker/src/dap.rs — the DaphneWorker implementations of the
  aggregator traits (taskprov checks, batch-overlap check, early reject).

Rust idioms are embedded as follows: fallible functions return Except
DapError, Option stays Option, panics (unreachable! and expect) are an outer
Option layer (none = panic), async durable-object calls become explicit state
passing on a WorkerState record, and machine integers are Nat (no arithmetic
here overflows).
-/

/-- Wire protocol version (daphne lib). The three variants used by the
sources under verification: draft02, draft04, and the Unknown placeholder. -/
inductive DapVersion where
  | Draft02
  | Draft04
  | Unknown
deriving DecidableEq, Repr

/-- Sender role of a DAP message (daphne lib). -/
inductive DapSender where
  | Client
  | Collector
  | Helper
  | Leader
deriving DecidableEq, Repr

/- Media-type strings, constants.rs lines 9-24. -/

def DRAFT02_MEDIA_TYPE_AGG_CONT_REQ : String := "application/dap-aggregate-continue-req"

def DRAFT02_MEDIA_TYPE_AGG_CONT_RESP : String := "application/dap-aggregate-continue-resp"

def DRAFT02_MEDIA_TYPE_AGG_INIT_REQ : String := "application/dap-aggregate-initialize-req"

def DRAFT02_MEDIA_TYPE_AGG_INIT_RESP : String := "application/dap-aggregate-initialize-resp"

def DRAFT02_MEDIA_TYPE_AGG_SHARE_RESP : String := "application/dap-aggregate-share-resp"

def DRAFT02_MEDIA_TYPE_COLLECT_RESP : String := "application/dap-collect-resp"

def DRAFT02_MEDIA_TYPE_HPKE_CONFIG : String := "application/dap-hpke-config"

def MEDIA_TYPE_AGG_JOB_CONT_REQ : String := "application/dap-aggregation-job-continue-req"

def MEDIA_TYPE_AGG_JOB_INIT_REQ : String := "application/dap-aggregation-job-init-req"

def MEDIA_TYPE_AGG_JOB_RESP : String := "application/dap-aggregation-job-resp"

def MEDIA_TYPE_AGG_SHARE_REQ : String := "application/dap-aggregate-share-req"

def MEDIA_TYPE_AGG_SHARE : String := "application/dap-aggregate-share"

def MEDIA_TYPE_COLLECTION : String := "application/dap-collection"

def MEDIA_TYPE_COLLECT_REQ : String := "application/dap-collect-req"

def MEDIA_TYPE_HPKE_CONFIG_LIST : String := "application/dap-hpke-config-list"

def MEDIA_TYPE_REPORT : String := "application/dap-report"

/-- Media type for each DAP request (constants.rs lines 28-45). -/
inductive DapMediaType where
  | AggregationJobInitReq
  | AggregationJobResp
  | AggregationJobContinueReq
  | Draft02AggregateContinueResp
  | AggregateShareReq
  | AggregateShare
  | CollectReq
  | Collection
  | HpkeConfigList
  | Report
  | Invalid (content_type : String)
  | Missing
deriving DecidableEq, Repr

namespace DapMediaType

/-- Sender of a DAP request or response with the given media type
(constants.rs lines 50-64). -/
def sender : DapMediaType → Option DapSender
  | AggregationJobInitReq
  | AggregationJobContinueReq
  | AggregateShareReq
  | Collection
  | HpkeConfigList => some DapSender.Leader
  | AggregationJobResp
  | Draft02AggregateContinueResp
  | AggregateShare => some DapSender.Helper
  | Report => some DapSender.Client
  | CollectReq => some DapSender.Collector
  | Invalid _ | Missing => none

/-- Parse a media type from the content-type header (constants.rs lines
67-97). The source is a single match on the (version, content-type) pair
whose arms are pairwise disjoint; it is restructured here as a match on the
option and the version followed by an equality chain on the string, which
selects exactly the same arm. -/
def from_str_for_version (version : DapVersion) (content_type : Option String) :
    DapMediaType :=
  match content_type with
  | none => Missing
  | some s =>
    match version with
    | DapVersion.Draft02 =>
      if s = DRAFT02_MEDIA_TYPE_AGG_CONT_REQ then AggregationJobContinueReq
      else if s = DRAFT02_MEDIA_TYPE_AGG_CONT_RESP then Draft02AggregateContinueResp
      else if s = DRAFT02_MEDIA_TYPE_AGG_INIT_REQ then AggregationJobInitReq
      else if s = DRAFT02_MEDIA_TYPE_AGG_INIT_RESP then AggregationJobResp
      else if s = DRAFT02_MEDIA_TYPE_AGG_SHARE_RESP then AggregateShare
      else if s = DRAFT02_MEDIA_TYPE_COLLECT_RESP then Collection
      else if s = DRAFT02_MEDIA_TYPE_HPKE_CONFIG then HpkeConfigList
      else if s = MEDIA_TYPE_AGG_SHARE_REQ then AggregateShareReq
      else if s = MEDIA_TYPE_COLLECT_REQ then CollectReq
      else if s = MEDIA_TYPE_REPORT then Report
      else Invalid s
    | DapVersion.Draft04 =>
      if s = MEDIA_TYPE_AGG_JOB_CONT_REQ then AggregationJobContinueReq
      else if s = MEDIA_TYPE_AGG_JOB_INIT_REQ then AggregationJobInitReq
      else if s = MEDIA_TYPE_AGG_JOB_RESP then AggregationJobResp
      else if s = MEDIA_TYPE_AGG_SHARE then AggregateShare
      else if s = MEDIA_TYPE_COLLECTION then Collection
      else if s = MEDIA_TYPE_HPKE_CONFIG_LIST then HpkeConfigList
      else if s = MEDIA_TYPE_AGG_SHARE_REQ then AggregateShareReq
      else if s = MEDIA_TYPE_COLLECT_REQ then CollectReq
      else if s = MEDIA_TYPE_REPORT then Report
      else Invalid s
    | DapVersion.Unknown => Invalid s

/-- Render the content-type string of a media type (constants.rs lines
100-138). The outer Option models the `unreachable!` panic on the final
(Unknown, _) arm: `none` is the panic, `some r` is a normal return of `r`.
The arms are in source order; the wildcard arms for
Draft02AggregateContinueResp, Invalid and Missing capture DapVersion.Unknown
before the panicking arm, exactly as in the source match. -/
def as_str_for_version (mt : DapMediaType) (version : DapVersion) :
    Option (Option String) :=
  match version, mt with
  | DapVersion.Draft02, AggregationJobInitReq => some (some DRAFT02_MEDIA_TYPE_AGG_INIT_REQ)
  | DapVersion.Draft04, AggregationJobInitReq => some (some MEDIA_TYPE_AGG_JOB_INIT_REQ)
  | DapVersion.Draft02, AggregationJobResp => some (some DRAFT02_MEDIA_TYPE_AGG_INIT_RESP)
  | DapVersion.Draft04, AggregationJobResp => some (some MEDIA_TYPE_AGG_JOB_RESP)
  | DapVersion.Draft02, AggregationJobContinueReq => some (some DRAFT02_MEDIA_TYPE_AGG_CONT_REQ)
  | DapVersion.Draft04, AggregationJobContinueReq => some (some MEDIA_TYPE_AGG_JOB_CONT_REQ)
  | DapVersion.Draft02, Draft02AggregateContinueResp => some (some DRAFT02_MEDIA_TYPE_AGG_CONT_RESP)
  | _, Draft02AggregateContinueResp => some none
  | DapVersion.Draft02, AggregateShareReq
  | DapVersion.Draft04, AggregateShareReq => some (some MEDIA_TYPE_AGG_SHARE_REQ)
  | DapVersion.Draft02, AggregateShare => some (some DRAFT02_MEDIA_TYPE_AGG_SHARE_RESP)
  | DapVersion.Draft04, AggregateShare => some (some MEDIA_TYPE_AGG_SHARE)
  | DapVersion.Draft02, CollectReq
  | DapVersion.Draft04, CollectReq => some (some MEDIA_TYPE_COLLECT_REQ)
  | DapVersion.Draft02, Collection => some (some DRAFT02_MEDIA_TYPE_COLLECT_RESP)
  | DapVersion.Draft04, Collection => some (some MEDIA_TYPE_COLLECTION)
  | DapVersion.Draft02, HpkeConfigList => some (some DRAFT02_MEDIA_TYPE_HPKE_CONFIG)
  | DapVersion.Draft04, HpkeConfigList => some (some MEDIA_TYPE_HPKE_CONFIG_LIST)
  | DapVersion.Draft02, Report
  | DapVersion.Draft04, Report => some (some MEDIA_TYPE_REPORT)
  | _, Invalid content_type => some (some content_type)
  | _, Missing => some none
  | DapVersion.Unknown, _ => none

end DapMediaType

/-- String table of a version: the content-type strings matched (to a
non-Invalid kind) by `from_str_for_version` at that version, in source
arm order. -/
def mediaTypeStrings : DapVersion → List String
  | DapVersion.Draft02 =>
    [DRAFT02_MEDIA_TYPE_AGG_CONT_REQ, DRAFT02_MEDIA_TYPE_AGG_CONT_RESP,
     DRAFT02_MEDIA_TYPE_AGG_INIT_REQ, DRAFT02_MEDIA_TYPE_AGG_INIT_RESP,
     DRAFT02_MEDIA_TYPE_AGG_SHARE_RESP, DRAFT02_MEDIA_TYPE_COLLECT_RESP,
     DRAFT02_MEDIA_TYPE_HPKE_CONFIG, MEDIA_TYPE_AGG_SHARE_REQ,
     MEDIA_TYPE_COLLECT_REQ, MEDIA_TYPE_REPORT]
  | DapVersion.Draft04 =>
    [MEDIA_TYPE_AGG_JOB_CONT_REQ, MEDIA_TYPE_AGG_JOB_INIT_REQ,
     MEDIA_TYPE_AGG_JOB_RESP, MEDIA_TYPE_AGG_SHARE, MEDIA_TYPE_COLLECTION,
     MEDIA_TYPE_HPKE_CONFIG_LIST, MEDIA_TYPE_AGG_SHARE_REQ,
     MEDIA_TYPE_COLLECT_REQ, MEDIA_TYPE_REPORT]
  | DapVersion.Unknown => []

/-- C1 counterexample. The claim quantifies over every kind for which
render returns a string; the sentinel kind Invalid "application/dap-report"
renders (at draft02) to the string "application/dap-report", yet parsing
that string back yields Report, not the sentinel. -/
theorem mediaType_roundtrip_fails_for_Invalid :
    (DapMediaType.Invalid "application/dap-report").as_str_for_version
        DapVersion.Draft02 = some (some "application/dap-report")
    ∧ DapMediaType.from_str_for_version DapVersion.Draft02
        (some "application/dap-report") = DapMediaType.Report
    ∧ DapMediaType.Report ≠ DapMediaType.Invalid "application/dap-report" := by
  refine ⟨rfl, by decide, by decide⟩

/-- C1 (amended): for version draft02 or draft04 and every media-type kind
other than the Invalid sentinel, if render returns a string then parsing
that string back at the same version yields the kind again. -/
theorem mediaType_parse_render_roundtrip (v : DapVersion) (k : DapMediaType)
    (s : String) (hv : v = DapVersion.Draft02 ∨ v = DapVersion.Draft04)
    (hk : ∀ str, k ≠ DapMediaType.Invalid str)
    (hr : k.as_str_for_version v = some (some s)) :
    DapMediaType.from_str_for_version v (some s) = k := by
  rcases hv with hv | hv <;> subst hv <;>
    cases k <;>
      first
        | exact absurd rfl (hk _)
        | (simp only [DapMediaType.as_str_for_version, Option.some.injEq] at hr
           first
             | exact Option.noConfusion hr
             | (subst hr; decide))

/-- C1 witness for the amended theorem, at draft02 and the Report kind. -/
theorem mediaType_parse_render_roundtrip_witness :
    DapMediaType.from_str_for_version DapVersion.Draft02
      (some MEDIA_TYPE_REPORT) = DapMediaType.Report :=
  mediaType_parse_render_roundtrip DapVersion.Draft02 DapMediaType.Report
    MEDIA_TYPE_REPORT (Or.inl rfl) (by intro str h; cases h) rfl

/-- C6: at draft02 and draft04, an absent content-type parses to Missing,
and any string outside the version's string table parses to Invalid
carrying the raw string. -/
theorem mediaType_parse_unknown (v : DapVersion) (s : String)
    (hv : v = DapVersion.Draft02 ∨ v = DapVersion.Draft04)
    (hs : s ∉ mediaTypeStrings v) :
    DapMediaType.from_str_for_version v none = DapMediaType.Missing
    ∧ DapMediaType.from_str_for_version v (some s) = DapMediaType.Invalid s := by
  rcases hv with hv | hv <;> subst hv
  · simp only [mediaTypeStrings, List.mem_cons, List.not_mem_nil, or_false,
      not_or] at hs
    obtain ⟨h1, h2, h3, h4, h5, h6, h7, h8, h9, h10⟩ := hs
    exact ⟨rfl, by
      simp [DapMediaType.from_str_for_version, h1, h2, h3, h4, h5, h6, h7, h8,
        h9, h10]⟩
  · simp only [mediaTypeStrings, List.mem_cons, List.not_mem_nil, or_false,
      not_or] at hs
    obtain ⟨h1, h2, h3, h4, h5, h6, h7, h8, h9⟩ := hs
    exact ⟨rfl, by
      simp [DapMediaType.from_str_for_version, h1, h2, h3, h4, h5, h6, h7, h8,
        h9]⟩

/-- C6 witness: the content-type "application/json" is not in the draft02
table and parses to Invalid "application/json"; an absent header parses to
Missing. -/
theorem mediaType_parse_unknown_witness :
    DapMediaType.from_str_for_version DapVersion.Draft02 none
        = DapMediaType.Missing
    ∧ DapMediaType.from_str_for_version DapVersion.Draft02
        (some "application/json") = DapMediaType.Invalid "application/json" :=
  mediaType_parse_unknown DapVersion.Draft02 "application/json" (Or.inl rfl)
    (by decide)

/-- Task identifier (daphne messages). A 32-byte opaque identifier, equal
iff bytewise equal; modelled as an opaque payload with an injective
rendering standing in for the hex display. -/
structure TaskId where
  id : Nat
deriving DecidableEq, Repr

/-- Hex rendering of a task id used in durable actor names, abstracted to
an injective rendering of the payload. -/
def TaskId.to_hex (t : TaskId) : String := toString t.id

/-- Report identifier (daphne messages), a 16-byte opaque identifier. -/
structure ReportId where
  id : Nat
deriving DecidableEq, Repr

/-- Report metadata (daphne messages): report id, timestamp in seconds and
the carried extensions (held opaquely; they are inspected only by the
taskprov parser, which this slice of the sources does not contain). -/
structure ReportMetadata where
  id : ReportId
  time : Nat
  extensions : List Nat
deriving DecidableEq, Repr

/-- Bearer token (auth.rs lines 14-18): a wrapped raw string. -/
structure BearerToken where
  raw : String
deriving DecidableEq, Repr

/-- Modelled from the spec: `constant_time_eq` lives in the daphne messages
module, which is not among the given sources. Functionally it is bytewise
equality of the two byte strings; the spec additionally requires its timing
to be independent of the longest matching prefix, which has no counterpart
in this embedding. -/
def constant_time_eq (a b : String) : Bool := a == b

/-- Equality of bearer tokens (auth.rs lines 26-30): the PartialEq impl
routes through `constant_time_eq` on the raw byte strings. -/
def BearerToken.eq (a b : BearerToken) : Bool := constant_time_eq a.raw b.raw

/-- Protocol abort (daphne aborts module); only the variant used by the
embedded worker code is modelled. -/
inductive DapAbort where
  | InvalidTask (detail : String) (task_id : TaskId)
deriving DecidableEq, Repr

/-- Daphne error type (daphne lib); the variants used by the embedded
code. -/
inductive DapError where
  | Fatal (msg : String)
  | Abort (abort : DapAbort)
deriving DecidableEq, Repr

/-- DAP request (daphne lib), restricted to the fields read by
`bearer_token_authorized`: task id, media type and the carried sender
authorization (a bearer token, when present). -/
structure DapRequest where
  task_id : Option TaskId
  media_type : DapMediaType
  sender_auth : Option BearerToken
deriving DecidableEq, Repr

/-- Shallow embedding of the `BearerTokenProvider` trait (auth.rs lines
53-75): the four provider operations as function-valued fields; fallible
async lookups become Except-valued functions. -/
structure BearerTokenProvider where
  get_leader_bearer_token_for : TaskId → Except DapError (Option BearerToken)
  get_collector_bearer_token_for : TaskId → Except DapError (Option BearerToken)
  is_taskprov_leader_bearer_token : BearerToken → Bool
  is_taskprov_collector_bearer_token : BearerToken → Bool

/-- Debug rendering of a media type, mirroring the derived Debug impl of
constants.rs line 27; the escaping of the inner string of Invalid is
elided (plain quoting). -/
def DapMediaType.debug_str : DapMediaType → String
  | DapMediaType.AggregationJobInitReq => "AggregationJobInitReq"
  | DapMediaType.AggregationJobResp => "AggregationJobResp"
  | DapMediaType.AggregationJobContinueReq => "AggregationJobContinueReq"
  | DapMediaType.Draft02AggregateContinueResp => "Draft02AggregateContinueResp"
  | DapMediaType.AggregateShareReq => "AggregateShareReq"
  | DapMediaType.AggregateShare => "AggregateShare"
  | DapMediaType.CollectReq => "CollectReq"
  | DapMediaType.Collection => "Collection"
  | DapMediaType.HpkeConfigList => "HpkeConfigList"
  | DapMediaType.Report => "Report"
  | DapMediaType.Invalid s => "Invalid(\"" ++ s ++ "\")"
  | DapMediaType.Missing => "Missing"

/-- Denial reason for a missing task id (auth.rs line 109). -/
def MISSING_TASK_ID_REASON : String := "Cannot authorize request with missing task ID."

/-- Denial reason for a wrong Leader token (auth.rs line 124, with the
source's typo preserved). -/
def LEADER_TOKEN_INCORRECT_REASON : String :=
  "The indicated beareer token is incorrect for the Leader."

/-- Denial reason for a wrong taskprov Leader token (auth.rs line 130,
with the source's typo preserved). -/
def TASKPROV_LEADER_TOKEN_INCORRECT_REASON : String :=
  "The indicated beaer token is incorrect for Taskprov Leader."

/-- Denial reason for a wrong Collector token (auth.rs line 141). -/
def COLLECTOR_TOKEN_INCORRECT_REASON : String :=
  "The indicated bearer token is incorrect for the Collector."

/-- Denial reason for a wrong taskprov Collector token (auth.rs lines
147-150). -/
def TASKPROV_COLLECTOR_TOKEN_INCORRECT_REASON : String :=
  "The indicated bearer token is incorrect for the Taskprov Collector."

/-- Denial reason for an unhandled or unknown media type (auth.rs lines
156-159), rendered by concatenation in place of the format! call. -/
def unexpected_media_type_reason (mt : DapMediaType) : String :=
  "Cannot resolve sender due to unexpected media type (" ++ mt.debug_str ++ ")."

/-- Default trait method `authorize_with_bearer_token` (auth.rs lines
78-96). -/
def authorize_with_bearer_token (p : BearerTokenProvider) (task_id : TaskId)
    (media_type : DapMediaType) : Except DapError BearerToken :=
  if media_type.sender = some DapSender.Leader then
    match p.get_leader_bearer_token_for task_id with
    | Except.error e => Except.error e
    | Except.ok none =>
      Except.error (DapError.Fatal "attempted to authorize request with unknown task ID")
    | Except.ok (some token) => Except.ok token
  else
    Except.error (DapError.Fatal
      ("attempted to authorize request of type \x27" ++ media_type.debug_str ++ "\x27"))

/-- Default trait method `bearer_token_authorized` (auth.rs lines 102-160).
Returns ok none when the request is authorized, ok (some reason) when it is
denied. The source's two guarded blocks (Leader then Collector) return only
when `sender_auth` is Some, and both guards are false for the other sender,
so dispatch on `sender_auth` first and on the sender second is the same
function. -/
def bearer_token_authorized (p : BearerTokenProvider) (req : DapRequest) :
    Except DapError (Option String) :=
  match req.task_id with
  | none => Except.ok (some MISSING_TASK_ID_REASON)
  | some task_id =>
    match req.sender_auth with
    | some got =>
      if req.media_type.sender = some DapSender.Leader then
        match p.get_leader_bearer_token_for task_id with
        | Except.error e => Except.error e
        | Except.ok (some expected) =>
          Except.ok (if got.eq expected then none
            else some LEADER_TOKEN_INCORRECT_REASON)
        | Except.ok none =>
          Except.ok (if p.is_taskprov_leader_bearer_token got then none
            else some TASKPROV_LEADER_TOKEN_INCORRECT_REASON)
      else if req.media_type.sender = some DapSender.Collector then
        match p.get_collector_bearer_token_for task_id with
        | Except.error e => Except.error e
        | Except.ok (some expected) =>
          Except.ok (if got.eq expected then none
            else some COLLECTOR_TOKEN_INCORRECT_REASON)
        | Except.ok none =>
          Except.ok (if p.is_taskprov_collector_bearer_token got then none
            else some TASKPROV_COLLECTOR_TOKEN_INCORRECT_REASON)
      else
        Except.ok (some (unexpected_media_type_reason req.media_type))
    | none => Except.ok (some (unexpected_media_type_reason req.media_type))

/-- C2: for a request with a task id, carrying a bearer token, whose media
type has sender Leader: when a leader bearer token is configured for the
task, the request is authorized iff the carried token equals it and denied
with the incorrect-for-Leader reason otherwise; when no token is configured
for the task, the request is authorized iff the provider recognizes the
token as the taskprov leader bearer token and denied with the
incorrect-for-Taskprov-Leader reason otherwise. In the first case the
result does not consult the taskprov predicate at all, so the fallback is
used only when the task has no configured token. -/
theorem bearer_token_authorized_leader (p : BearerTokenProvider)
    (req : DapRequest) (tid : TaskId) (got : BearerToken)
    (htid : req.task_id = some tid) (hauth : req.sender_auth = some got)
    (hsender : req.media_type.sender = some DapSender.Leader) :
    (∀ expected, p.get_leader_bearer_token_for tid = Except.ok (some expected) →
      bearer_token_authorized p req =
        Except.ok (if got.raw = expected.raw then none
          else some LEADER_TOKEN_INCORRECT_REASON))
    ∧ (p.get_leader_bearer_token_for tid = Except.ok none →
      bearer_token_authorized p req =
        Except.ok (if p.is_taskprov_leader_bearer_token got then none
          else some TASKPROV_LEADER_TOKEN_INCORRECT_REASON)) := by
  constructor
  · intro expected hexp
    simp [bearer_token_authorized, htid, hauth, hsender, hexp, BearerToken.eq,
      constant_time_eq]
  · intro hnone
    simp [bearer_token_authorized, htid, hauth, hsender, hnone]

/-- Example provider used to witness the authorization theorems: it has a
leader bearer token configured for exactly one task. -/
def exampleTaskId : TaskId := ⟨0⟩

/-- Example bearer token for the witnesses. -/
def exampleToken : BearerToken := ⟨"tok-a"⟩

/-- Example provider for the witnesses. -/
def exampleProvider : BearerTokenProvider where
  get_leader_bearer_token_for := fun t =>
    Except.ok (if t = exampleTaskId then some exampleToken else none)
  get_collector_bearer_token_for := fun _ => Except.ok none
  is_taskprov_leader_bearer_token := fun _ => false
  is_taskprov_collector_bearer_token := fun _ => false

/-- C2 witness: the example request carrying the configured token for the
configured task is authorized. -/
theorem bearer_token_authorized_leader_witness :
    bearer_token_authorized exampleProvider
      ⟨some exampleTaskId, DapMediaType.AggregationJobInitReq, some exampleToken⟩
      = Except.ok none := by
  have h := (bearer_token_authorized_leader exampleProvider
    ⟨some exampleTaskId, DapMediaType.AggregationJobInitReq, some exampleToken⟩
    exampleTaskId exampleToken rfl rfl rfl).1 exampleToken (by
      simp [exampleProvider])
  simpa using h

/-- C8: a request whose sender_auth field is None is always denied: with a
missing task id the missing-task-id reason is returned, and otherwise the
unexpected-media-type reason is returned (in particular for Leader- and
Collector-sender media types, rather than any missing-token reason). -/
theorem bearer_token_authorized_no_auth (p : BearerTokenProvider)
    (req : DapRequest) (h : req.sender_auth = none) :
    bearer_token_authorized p req = Except.ok (some (
      match req.task_id with
      | none => MISSING_TASK_ID_REASON
      | some _ => unexpected_media_type_reason req.media_type)) := by
  rcases hq : req.task_id with _ | tid <;>
    simp [bearer_token_authorized, h, hq]

/-- C8 witness: a request with a Leader-sender media type, a task id and no
token is denied with the unexpected-media-type reason. -/
theorem bearer_token_authorized_no_auth_witness :
    bearer_token_authorized exampleProvider
      ⟨some exampleTaskId, DapMediaType.AggregationJobInitReq, none⟩
      = Except.ok (some (unexpected_media_type_reason
          DapMediaType.AggregationJobInitReq)) := by
  simpa using bearer_token_authorized_no_auth exampleProvider
    ⟨some exampleTaskId, DapMediaType.AggregationJobInitReq, none⟩ rfl

/-- C9: `authorize_with_bearer_token` returns a Fatal error for every media
type whose sender is not Leader, and it returns a token only when the
sender is Leader and the provider has a leader bearer token for the task
(the returned token being exactly that one). -/
theorem authorize_with_bearer_token_spec (p : BearerTokenProvider)
    (task_id : TaskId) (media_type : DapMediaType) :
    (media_type.sender ≠ some DapSender.Leader →
      authorize_with_bearer_token p task_id media_type =
        Except.error (DapError.Fatal
          ("attempted to authorize request of type \x27"
            ++ media_type.debug_str ++ "\x27")))
    ∧ (∀ token, authorize_with_bearer_token p task_id media_type
          = Except.ok token →
        media_type.sender = some DapSender.Leader
        ∧ p.get_leader_bearer_token_for task_id = Except.ok (some token)) := by
  constructor
  · intro h
    simp [authorize_with_bearer_token, h]
  · intro token h
    by_cases hs : media_type.sender = some DapSender.Leader
    · refine ⟨hs, ?_⟩
      rw [authorize_with_bearer_token, if_pos hs] at h
      rcases hg : p.get_leader_bearer_token_for task_id with e | o
      · rw [hg] at h
        simp at h
      · rcases o with _ | tok
        · rw [hg] at h
          simp at h
        · rw [hg] at h
          simp at h
          rw [h]
    · rw [authorize_with_bearer_token, if_neg hs] at h
      exact Except.noConfusion h

/-- C9 witness: a Report media type (sender Client) yields the Fatal
error. -/
theorem authorize_with_bearer_token_spec_witness :
    authorize_with_bearer_token exampleProvider exampleTaskId
        DapMediaType.Report =
      Except.error (DapError.Fatal
        ("attempted to authorize request of type \x27"
          ++ DapMediaType.Report.debug_str ++ "\x27")) :=
  (authorize_with_bearer_token_spec exampleProvider exampleTaskId
    DapMediaType.Report).1 (by decide)

/-- Taskprov wire version (daphne taskprov module), carried opaquely. -/
structure TaskprovVersion where
  v : Nat
deriving DecidableEq, Repr

/-- Global configuration (daphne lib), restricted to the fields read by the
embedded worker code. -/
structure DapGlobalConfig where
  allow_taskprov : Bool
  taskprov_version : TaskprovVersion
deriving DecidableEq, Repr

/-- Worker taskprov configuration (daphne_worker config module). The
worker's authorization methods (DaphneWorkerAuthMethod) form a sum of a
bearer token and a TLS client-auth method; only the bearer-token method is
modelled, as the settled claims never evaluate the TLS variant. The
verify-key-init bytes and the collector HPKE config are carried opaquely
for the `try_from_taskprov` call. -/
structure TaskprovConfig where
  leader_auth : BearerToken
  collector_auth : Option BearerToken
  vdaf_verify_key_init : Nat
  hpke_collector_config : Nat
deriving DecidableEq, Repr

/-- Batch identifier (daphne messages), a 32-byte server-assigned value,
carried opaquely. -/
structure BatchId where
  id : Nat
deriving DecidableEq, Repr

/-- Bucket of the aggregate store (daphne lib): a time window for
time-interval tasks or a batch id for fixed-size tasks (spec data model). -/
inductive DapBatchBucket where
  | TimeInterval (batch_window : Nat)
  | FixedSize (batch_id : BatchId)
deriving DecidableEq, Repr

/-- Batch selector of a collect request (daphne messages). -/
inductive BatchSelector where
  | TimeInterval (batch_interval_start : Nat) (batch_interval_duration : Nat)
  | FixedSizeByBatchId (batch_id : BatchId)
deriving DecidableEq, Repr

/-- Partial batch selector of an aggregation job (daphne messages); the
variants are those constructed in dap.rs lines 820 and 839. -/
inductive PartialBatchSelector where
  | TimeInterval
  | FixedSizeByBatchId (batch_id : BatchId)
deriving DecidableEq, Repr

/-- Parsed taskprov advertisement (daphne taskprov module), carried
opaquely: the embedded worker code only tests its presence and hands it to
`try_from_taskprov`. -/
structure TaskprovTaskConfig where
  payload : Nat
deriving DecidableEq, Repr

/-- Per-report terminal failure (daphne messages); the outcomes of the
early-reject evaluator (spec section 4.6). -/
inductive TransitionFailure where
  | ReportReplayed
  | BatchCollected
  | ReportTooEarly
  | ReportDropped
  | TaskExpired
deriving DecidableEq, Repr

/-- Task configuration (daphne lib), restricted to the parts the embedded
worker code reads: the wire version and the two batch-span computations.
The span methods live in the daphne lib outside the given sources; by the
spec's batch-span determinism invariant they are pure functions of the
selector (and the report metadata), so they are carried as function-valued
fields. -/
structure DapTaskConfig where
  version : DapVersion
  batch_span_for_sel : BatchSelector → Except DapError (List DapBatchBucket)
  batch_span_for_meta : PartialBatchSelector → List ReportMetadata →
    Except DapError (List (DapBatchBucket × List ReportMetadata))

/-- State of one aggregate-store durable object, restricted to the
collected flag, the only part the embedded operations consume. -/
structure AggregateStoreState where
  collected : Bool
deriving DecidableEq, Repr

/-- Durable storage state reached through the worker: task configs and
leader bearer tokens in KV, and the aggregate-store and reports-processed
durable objects, keyed by their durable instance names. -/
structure WorkerState where
  kv_task_configs : TaskId → Option DapTaskConfig
  kv_leader_tokens : TaskId → Option BearerToken
  agg_store : String → AggregateStoreState
  reports_processed : String → ReportId → Bool

/-- Static configuration and external oracles of a DaphneWorker. The
oracle fields model code of this repository that is not among the given
sources: `get_taskprov_task_config` (daphne taskprov module) parses the
taskprov extension out of report metadata; `try_from_taskprov` (daphne
lib) reconstructs a task config; `durable_name_report_store`
(daphne_worker config module) derives the ReportsProcessed instance name
from task and report metadata; the report-time bounds are the DapAggregator
trait defaults. All are pure functions of their arguments. -/
structure DaphneWorker where
  global : DapGlobalConfig
  taskprov : Option TaskprovConfig
  get_taskprov_task_config : TaskprovVersion → TaskId → ReportMetadata →
    Except DapError (Option TaskprovTaskConfig)
  try_from_taskprov : DapVersion → TaskprovVersion → TaskId →
    TaskprovTaskConfig → Nat → Nat → Except DapError DapTaskConfig
  durable_name_report_store : DapVersion → String → ReportMetadata → String
  get_current_time : Nat
  least_valid_report_time : Nat → Nat
  greatest_valid_report_time : Nat → Nat

namespace DaphneWorker

/-- Worker taskprov leader-token predicate (dap.rs lines 229-235). -/
def is_taskprov_leader_bearer_token (w : DaphneWorker) (token : BearerToken) :
    Bool :=
  w.global.allow_taskprov &&
    (match w.taskprov with
     | some config => config.leader_auth.eq token
     | none => false)

/-- Worker taskprov collector-token predicate (dap.rs lines 237-250). The
source calls `expect` on the optional collector_auth; the outer Option
models that panic (`none` is the panic). The `&&` short-circuit means the
match is only evaluated when allow_taskprov holds. -/
def is_taskprov_collector_bearer_token (w : DaphneWorker)
    (token : BearerToken) : Option Bool :=
  if w.global.allow_taskprov then
    match w.taskprov with
    | some config =>
      match config.collector_auth with
      | some auth => some (auth.eq token)
      | none => none
    | none => some false
  else
    some false

end DaphneWorker

/-- C10: the worker's taskprov collector-token check is not total: whenever
allow_taskprov is set and a taskprov configuration without a collector_auth
method is present, the `expect` call panics instead of returning a
boolean, for every input token. -/
theorem is_taskprov_collector_bearer_token_panics (w : DaphneWorker)
    (token : BearerToken) (config : TaskprovConfig)
    (hallow : w.global.allow_taskprov = true)
    (htp : w.taskprov = some config)
    (hcoll : config.collector_auth = none) :
    w.is_taskprov_collector_bearer_token token = none := by
  simp [DaphneWorker.is_taskprov_collector_bearer_token, hallow, htp, hcoll]

/-- Example taskprov configuration without a collector_auth method. -/
def exampleTaskprovNoCollector : TaskprovConfig :=
  ⟨⟨"taskprov-leader-token"⟩, none, 0, 0⟩

/-- Example task configuration; its time-interval span has a single
one-window bucket. -/
def exampleTaskConfig : DapTaskConfig where
  version := DapVersion.Draft04
  batch_span_for_sel := fun _ => Except.ok [DapBatchBucket.TimeInterval 0]
  batch_span_for_meta := fun _ metas =>
    Except.ok [(DapBatchBucket.TimeInterval 0, metas)]

/-- Example worker with taskprov allowed but no collector_auth
configured. -/
def exampleWorkerNoCollector : DaphneWorker where
  global := ⟨true, ⟨2⟩⟩
  taskprov := some exampleTaskprovNoCollector
  get_taskprov_task_config := fun _ _ _ => Except.ok (some ⟨0⟩)
  try_from_taskprov := fun _ _ _ _ _ _ => Except.ok exampleTaskConfig
  durable_name_report_store := fun _ task_id_hex m =>
    "reports_processed/v04/" ++ task_id_hex ++ "/" ++ toString (m.time / 100)
  get_current_time := 1000
  least_valid_report_time := fun t => t - 500
  greatest_valid_report_time := fun t => t + 500

/-- C10 witness: the example worker's collector-token check panics on a
concrete token. -/
theorem is_taskprov_collector_bearer_token_panics_witness :
    exampleWorkerNoCollector.is_taskprov_collector_bearer_token ⟨"t"⟩
      = none :=
  is_taskprov_collector_bearer_token_panics exampleWorkerNoCollector ⟨"t"⟩
    exampleTaskprovNoCollector rfl rfl rfl

/-- Modelled from the spec: KV lookup of a task config (daphne_worker
config module, not among the given sources), a read with no state change;
KV transport failures are not modelled. -/
def get_task_config (st : WorkerState) (task_id : TaskId) :
    Option DapTaskConfig :=
  st.kv_task_configs task_id

/-- Modelled from the spec: resolve a task id to its configuration,
failing when the task is unknown (daphne_worker config module, not among
the given sources). -/
def try_get_task_config (st : WorkerState) (task_id : TaskId) :
    Except DapError DapTaskConfig :=
  match st.kv_task_configs task_id with
  | some task_config => Except.ok task_config
  | none => Except.error (DapError.Fatal "unrecognized task")

/-- Modelled from the spec: persist the leader bearer token of a task in
KV so that subsequent authorization lookups succeed (spec section 4.3 step
6; daphne_worker config module, not among the given sources). -/
def set_leader_bearer_token (st : WorkerState) (task_id : TaskId)
    (token : BearerToken) : WorkerState :=
  { st with kv_leader_tokens := fun t =>
      if t = task_id then some token else st.kv_leader_tokens t }

/-- Modelled from the spec: persist a task config in KV (spec section 4.3
step 6; daphne_worker config module, not among the given sources). -/
def set_task_config (st : WorkerState) (task_id : TaskId)
    (task_config : DapTaskConfig) : WorkerState :=
  { st with kv_task_configs := fun t =>
      if t = task_id then some task_config else st.kv_task_configs t }

/-- Opt-in / opt-out policy hook (dap.rs lines 356-362): the worker always
opts in. -/
def taskprov_opt_out_reason (_task_config : DapTaskConfig) :
    Except DapError (Option String) :=
  Except.ok none

namespace DaphneWorker

/-- Task resolution with the taskprov path (dap.rs lines 367-452). Durable
state is threaded explicitly: the pair's second component is the state
after the call. The source writes the leader bearer token only when the
taskprov leader_auth method is a bearer token; with the auth-method sum
restricted to bearer tokens the write is unconditional here. -/
def get_task_config_considering_taskprov (w : DaphneWorker)
    (st : WorkerState) (version : DapVersion) (task_id : TaskId)
    (metadata : Option ReportMetadata) :
    Except DapError (Option DapTaskConfig) × WorkerState :=
  match get_task_config st task_id with
  | some found => (Except.ok (some found), st)
  | none =>
    match metadata with
    | none =>
      -- No report metadata, so we're not going to find anything.
      (Except.ok none, st)
    | some metadata_ref =>
      match w.get_taskprov_task_config w.global.taskprov_version task_id
          metadata_ref with
      | Except.error e => (Except.error e, st)
      | Except.ok none => (Except.ok none, st)
      | Except.ok (some taskprov_task_config) =>
        if !w.global.allow_taskprov then
          (Except.error (DapError.Abort (DapAbort.InvalidTask
            "Taskprov extension is disabled." task_id)), st)
        else
          match w.taskprov with
          | none =>
            (Except.error (DapError.Fatal "taskprov configuration not found"),
              st)
          | some taskprov =>
            match w.try_from_taskprov version w.global.taskprov_version
                task_id taskprov_task_config taskprov.vdaf_verify_key_init
                taskprov.hpke_collector_config with
            | Except.error e => (Except.error e, st)
            | Except.ok task_config =>
              match taskprov_opt_out_reason task_config with
              | Except.error e => (Except.error e, st)
              | Except.ok (some reason) =>
                (Except.error (DapError.Abort (DapAbort.InvalidTask reason
                  task_id)), st)
              | Except.ok none =>
                let st1 := set_leader_bearer_token st task_id
                  taskprov.leader_auth
                let st2 := set_task_config st1 task_id task_config
                -- Do the usual get again, as the source does.
                (Except.ok (get_task_config st2 task_id), st2)

end DaphneWorker

/-- C4: when the task id is not in storage, the metadata carries a
well-formed taskprov extension (the parser returns a config), and the
global allow_taskprov flag is false, task resolution returns the
InvalidTask abort — it neither returns ok-none nor changes any durable
state (the task is not materialized). -/
theorem get_task_config_taskprov_disabled (w : DaphneWorker)
    (st : WorkerState) (version : DapVersion) (task_id : TaskId)
    (m : ReportMetadata) (tptc : TaskprovTaskConfig)
    (hfound : st.kv_task_configs task_id = none)
    (htp : w.get_taskprov_task_config w.global.taskprov_version task_id m
      = Except.ok (some tptc))
    (hallow : w.global.allow_taskprov = false) :
    w.get_task_config_considering_taskprov st version task_id (some m)
      = (Except.error (DapError.Abort (DapAbort.InvalidTask
          "Taskprov extension is disabled." task_id)), st) := by
  simp [DaphneWorker.get_task_config_considering_taskprov, get_task_config,
    hfound, htp, hallow]

/-- Example worker with taskprov globally disabled but a parseable
taskprov extension in reports. -/
def exampleWorkerTaskprovOff : DaphneWorker where
  global := ⟨false, ⟨2⟩⟩
  taskprov := some ⟨⟨"taskprov-leader-token"⟩, some ⟨"taskprov-collector-token"⟩, 0, 0⟩
  get_taskprov_task_config := fun _ _ _ => Except.ok (some ⟨7⟩)
  try_from_taskprov := fun _ _ _ _ _ _ => Except.ok exampleTaskConfig
  durable_name_report_store := fun _ task_id_hex m =>
    "reports_processed/v04/" ++ task_id_hex ++ "/" ++ toString (m.time / 100)
  get_current_time := 1000
  least_valid_report_time := fun t => t - 500
  greatest_valid_report_time := fun t => t + 500

/-- Example state with no stored task configs or tokens and nothing
collected or processed. -/
def exampleEmptyState : WorkerState where
  kv_task_configs := fun _ => none
  kv_leader_tokens := fun _ => none
  agg_store := fun _ => ⟨false⟩
  reports_processed := fun _ _ => false

/-- Example report metadata. -/
def exampleMetadata : ReportMetadata := ⟨⟨42⟩, 900, [1]⟩

/-- C4 witness: at the example worker with taskprov disabled, resolution
of an unknown task with taskprov metadata aborts with InvalidTask and
leaves the state untouched. -/
theorem get_task_config_taskprov_disabled_witness :
    exampleWorkerTaskprovOff.get_task_config_considering_taskprov
        exampleEmptyState DapVersion.Draft04 exampleTaskId
        (some exampleMetadata)
      = (Except.error (DapError.Abort (DapAbort.InvalidTask
          "Taskprov extension is disabled." exampleTaskId)),
          exampleEmptyState) :=
  get_task_config_taskprov_disabled exampleWorkerTaskprovOff
    exampleEmptyState DapVersion.Draft04 exampleTaskId exampleMetadata ⟨7⟩
    rfl rfl rfl

/-- Modelled from the spec: name of the aggregate-store durable instance
for a bucket, following the persisted-state schema
agg_store/{version}/{task_id_hex}/{bucket_encoding} (spec section 6;
daphne_worker durable module, not among the given sources). -/
def durable_name_agg_store (version : DapVersion) (task_id_hex : String)
    (bucket : DapBatchBucket) : String :=
  let version_part :=
    match version with
    | DapVersion.Draft02 => "v02"
    | DapVersion.Draft04 => "v04"
    | DapVersion.Unknown => "unknown"
  let bucket_part :=
    match bucket with
    | DapBatchBucket.TimeInterval batch_window =>
      "window/" ++ toString batch_window
    | DapBatchBucket.FixedSize batch_id => "batch/" ++ toString batch_id.id
  "agg_store/" ++ version_part ++ "/" ++ task_id_hex ++ "/" ++ bucket_part

/-- Early-return loop over the collected flags (dap.rs lines 482-488):
true at the first true response, false when none is true. -/
def first_true : List Bool → Bool
  | [] => false
  | b :: rest => if b then true else first_true rest

/-- Each step of `first_true` is boolean disjunction. -/
theorem first_true_eq_any (l : List Bool) : first_true l = l.any id := by
  induction l with
  | nil => rfl
  | cons b rest ih =>
    cases b <;> simp [first_true, ih]

/-- Batch-overlap check (dap.rs lines 458-489): fan out a check-collected
read over every bucket of the selector's span and report whether any
response is true. The concurrent fan-out is pure reads, modelled as a map
over the span. -/
def is_batch_overlapping (st : WorkerState) (task_id : TaskId)
    (batch_sel : BatchSelector) : Except DapError Bool :=
  match try_get_task_config st task_id with
  | Except.error e => Except.error e
  | Except.ok task_config =>
    match task_config.batch_span_for_sel batch_sel with
    | Except.error e => Except.error e
    | Except.ok buckets =>
      let responses := buckets.map (fun bucket =>
        (st.agg_store (durable_name_agg_store task_config.version
          task_id.to_hex bucket)).collected)
      Except.ok (first_true responses)

/-- C5: given the task resolves and its span computes, the overlap check
returns true iff some bucket of the span has its collected flag set, and
false iff no bucket of the span is collected. -/
theorem is_batch_overlapping_spec (st : WorkerState) (task_id : TaskId)
    (batch_sel : BatchSelector) (task_config : DapTaskConfig)
    (buckets : List DapBatchBucket)
    (hc : try_get_task_config st task_id = Except.ok task_config)
    (hs : task_config.batch_span_for_sel batch_sel = Except.ok buckets) :
    (is_batch_overlapping st task_id batch_sel = Except.ok true ↔
      ∃ bucket ∈ buckets,
        (st.agg_store (durable_name_agg_store task_config.version
          task_id.to_hex bucket)).collected = true)
    ∧ (is_batch_overlapping st task_id batch_sel = Except.ok false ↔
      ∀ bucket ∈ buckets,
        (st.agg_store (durable_name_agg_store task_config.version
          task_id.to_hex bucket)).collected = false) := by
  simp only [is_batch_overlapping, hc, hs]
  constructor
  · simp [first_true_eq_any, List.any_eq_true]
  · simp [first_true_eq_any, List.any_eq_false]

/-- Example state for the overlap witness: the example task is stored and
every aggregate-store bucket is marked collected. -/
def exampleCollectedState : WorkerState where
  kv_task_configs := fun t =>
    if t = exampleTaskId then some exampleTaskConfig else none
  kv_leader_tokens := fun _ => none
  agg_store := fun _ => ⟨true⟩
  reports_processed := fun _ _ => false

/-- C5 witness: with the single bucket of the example span collected, the
overlap check returns true. -/
theorem is_batch_overlapping_spec_witness :
    is_batch_overlapping exampleCollectedState exampleTaskId
      (BatchSelector.TimeInterval 0 60) = Except.ok true := by
  refine (is_batch_overlapping_spec exampleCollectedState exampleTaskId
    (BatchSelector.TimeInterval 0 60) exampleTaskConfig
    [DapBatchBucket.TimeInterval 0] (by simp [try_get_task_config,
      exampleCollectedState]) rfl).1.mpr ?_
  exact ⟨DapBatchBucket.TimeInterval 0, by simp, rfl⟩

/-- Modelled from the spec: `early_metadata_check` (daphne roles module,
not among the given sources). Per-report early-reject outcome from the
metadata, the processed and collected flags and the validity bounds (spec
section 4.6): ReportReplayed when already processed, BatchCollected when
the bucket is collected, ReportDropped when time < min_time,
ReportTooEarly when time > max_time; the spec fixes the outcomes, the
order of the tests is chosen here. -/
def early_metadata_check (metadata : ReportMetadata)
    (processed collected : Bool) (min_time max_time : Nat) :
    Option TransitionFailure :=
  if processed then some TransitionFailure.ReportReplayed
  else if collected then some TransitionFailure.BatchCollected
  else if metadata.time < min_time then some TransitionFailure.ReportDropped
  else if metadata.time > max_time then some TransitionFailure.ReportTooEarly
  else none

/-- Modelled from the spec: the ReportsProcessed durable operation named by
DURABLE_REPORTS_PROCESSED_MARK_AGGREGATED (daphne_worker durable module,
not among the given sources). The object stores the set of processed
report ids for replay rejection (spec section 2); per the source comments
(dap.rs lines 740-746, check_early_reject "tracks all report IDs consumed
for the task in ReportsProcessed"), the operation records the posted ids
as processed and responds with those already processed before the call. -/
def mark_aggregated (st : WorkerState) (durable_name : String)
    (ids : List ReportId) : List ReportId × WorkerState :=
  (ids.filter (fun id => st.reports_processed durable_name id),
   { st with reports_processed := fun n id =>
       if n = durable_name then
         (st.reports_processed n id || decide (id ∈ ids))
       else st.reports_processed n id })

/-- Fold of the mark-aggregated posts over the coalesced request data. The
source issues the posts concurrently (try_join_all); after coalescing each
durable name occurs once, so the posts address distinct objects and every
serialization yields this fold. -/
def mark_aggregated_all (st : WorkerState) :
    List (String × List ReportId) → List (List ReportId) × WorkerState
  | [] => ([], st)
  | e :: rest =>
    let head := mark_aggregated st e.1 e.2
    let tail := mark_aggregated_all head.2 rest
    (head.1 :: tail.1, tail.2)

/-- Pairs of (ReportsProcessed instance name, report id), one per report
metadata of the span (dap.rs lines 586-605 before coalescing). -/
def report_store_pairs (w : DaphneWorker) (version : DapVersion)
    (task_id_hex : String)
    (span : List (DapBatchBucket × List ReportMetadata)) :
    List (String × ReportId) :=
  span.flatMap (fun p => p.2.map (fun m =>
    (w.durable_name_report_store version task_id_hex m, m.id)))

/-- Coalescing of the report-store pairs by durable name (dap.rs lines
593-605): the source groups into a HashMap keyed by name, whose iteration
order is unspecified; it is fixed here as first-occurrence order, each name
once with its report ids in encounter order. -/
def grouped_report_ids (pairs : List (String × ReportId)) :
    List (String × List ReportId) :=
  (pairs.map Prod.fst).dedup.map (fun n =>
    (n, pairs.filterMap (fun p => if p.1 = n then some p.2 else none)))

/-- Lookup of a bucket's metadata in the span (dap.rs line 656,
span.get(bucket).unwrap()); the bucket is always drawn from the span, so
the none case is unreachable and returns the empty list. -/
def span_get (span : List (DapBatchBucket × List ReportMetadata))
    (bucket : DapBatchBucket) : List ReportMetadata :=
  match span.find? (fun p => decide (p.1 = bucket)) with
  | some p => p.2
  | none => []

/-- Early-reject evaluation (dap.rs lines 569-667). Durable state is
threaded explicitly; the result list models the early_fails map as its
insertion sequence. The aggregate-store check-collected reads are issued
against the post-marking state, which is immaterial because marking never
touches the aggregate store. -/
def check_early_reject (w : DaphneWorker) (st : WorkerState)
    (task_id : TaskId) (part_batch_sel : PartialBatchSelector)
    (report_meta : List ReportMetadata) :
    Except DapError (List (ReportId × TransitionFailure)) × WorkerState :=
  match try_get_task_config st task_id with
  | Except.error e => (Except.error e, st)
  | Except.ok task_config =>
    match task_config.batch_span_for_meta part_batch_sel report_meta with
    | Except.error e => (Except.error e, st)
    | Except.ok span =>
      let task_id_hex := task_id.to_hex
      let agg_store_request_name := span.map (fun p =>
        durable_name_agg_store task_config.version task_id_hex p.1)
      let agg_store_request_bucket := span.map Prod.fst
      let reports_processed_request_data :=
        grouped_report_ids (report_store_pairs w task_config.version
          task_id_hex span)
      let marked := mark_aggregated_all st reports_processed_request_data
      let st1 := marked.2
      let reports_processed := marked.1.flatten
      let agg_store_responses := agg_store_request_name.map (fun n =>
        (st1.agg_store n).collected)
      let current_time := w.get_current_time
      let min_time := w.least_valid_report_time current_time
      let max_time := w.greatest_valid_report_time current_time
      let early_fails :=
        (agg_store_request_bucket.zip agg_store_responses).flatMap (fun bc =>
          (span_get span bc.1).filterMap (fun metadata =>
            let processed := decide (metadata.id ∈ reports_processed)
            match early_metadata_check metadata processed bc.2 min_time
                max_time with
            | some failure => some (metadata.id, failure)
            | none => none))
      (Except.ok early_fails, st1)

/-- Marking folds never touch the KV maps or the aggregate store. -/
theorem mark_aggregated_all_frame (l : List (String × List ReportId))
    (st : WorkerState) :
    ((mark_aggregated_all st l).2).kv_task_configs = st.kv_task_configs
    ∧ ((mark_aggregated_all st l).2).kv_leader_tokens = st.kv_leader_tokens
    ∧ ((mark_aggregated_all st l).2).agg_store = st.agg_store := by
  induction l generalizing st with
  | nil => exact ⟨rfl, rfl, rfl⟩
  | cons e rest ih =>
    simpa [mark_aggregated_all, mark_aggregated] using
      ih (mark_aggregated st e.1 e.2).2

/-- After the marking fold, a report id is processed in an instance iff it
was processed before or some fold entry for that instance lists it. -/
theorem mark_aggregated_all_reports_processed
    (l : List (String × List ReportId)) (st : WorkerState) (name : String)
    (id : ReportId) :
    ((mark_aggregated_all st l).2).reports_processed name id =
      (st.reports_processed name id
        || l.any (fun e => decide (e.1 = name) && decide (id ∈ e.2))) := by
  induction l generalizing st with
  | nil => simp [mark_aggregated_all]
  | cons e rest ih =>
    simp only [mark_aggregated_all, mark_aggregated]
    rw [ih]
    by_cases h : name = e.1
    · simp [h, Bool.or_assoc]
    · have h' : ¬ e.1 = name := fun hh => h hh.symm
      simp [h, h']

/-- Filtering the pair list to one durable name collects exactly the ids
paired with that name. -/
theorem mem_filterMap_ids (pairs : List (String × ReportId)) (n : String)
    (id : ReportId) :
    (id ∈ pairs.filterMap (fun p => if p.1 = n then some p.2 else none))
      ↔ (n, id) ∈ pairs := by
  rw [List.mem_filterMap]
  constructor
  · rintro ⟨⟨p1, p2⟩, hp, hpe⟩
    dsimp only at hpe
    split at hpe
    · next hc =>
        obtain rfl := Option.some.inj hpe
        subst hc
        exact hp
    · exact Option.noConfusion hpe
  · intro h
    exact ⟨(n, id), h, by simp⟩

/-- The deduplicated name list holds exactly the names that occur in the
pair list. -/
theorem mem_dedup_names (pairs : List (String × ReportId)) (n : String) :
    (n ∈ (pairs.map Prod.fst).dedup) ↔ ∃ id, (n, id) ∈ pairs := by
  rw [List.mem_dedup, List.mem_map]
  constructor
  · rintro ⟨⟨p1, p2⟩, hp, rfl⟩
    exact ⟨p2, hp⟩
  · rintro ⟨id, h⟩
    exact ⟨(n, id), h, rfl⟩

/-- Membership in the coalesced request data matches membership in the raw
pair list. -/
theorem grouped_report_ids_mem (pairs : List (String × ReportId))
    (name : String) (id : ReportId) :
    ((grouped_report_ids pairs).any (fun e =>
        decide (e.1 = name) && decide (id ∈ e.2)) = true)
      ↔ (name, id) ∈ pairs := by
  constructor
  · intro h
    rw [List.any_eq_true] at h
    obtain ⟨e, he, hcond⟩ := h
    rw [grouped_report_ids, List.mem_map] at he
    obtain ⟨n, hn, rfl⟩ := he
    rw [Bool.and_eq_true, decide_eq_true_eq, decide_eq_true_eq] at hcond
    obtain ⟨h1, h2⟩ := hcond
    dsimp only at h1 h2
    rw [mem_filterMap_ids] at h2
    rw [h1] at h2
    exact h2
  · intro hmem
    rw [List.any_eq_true]
    refine ⟨(name, pairs.filterMap (fun p =>
      if p.1 = name then some p.2 else none)), ?_, ?_⟩
    · rw [grouped_report_ids, List.mem_map]
      exact ⟨name, (mem_dedup_names pairs name).mpr ⟨id, hmem⟩, rfl⟩
    · rw [Bool.and_eq_true, decide_eq_true_eq, decide_eq_true_eq]
      exact ⟨rfl, (mem_filterMap_ids pairs name id).mpr hmem⟩

/-- C3 (amended): running check_early_reject is not a pure read of durable
state. On the success path it marks every supplied report id as aggregated
in its ReportsProcessed instance — the store changes exactly there — while
the KV maps and the AggregateStore are unchanged (the aggregate store is
only read); the per-report outcome is the pure early_metadata_check of the
metadata, the processed and collected flags and the time bounds. -/
theorem check_early_reject_state (w : DaphneWorker) (st : WorkerState)
    (task_id : TaskId) (part_batch_sel : PartialBatchSelector)
    (report_meta : List ReportMetadata) (task_config : DapTaskConfig)
    (span : List (DapBatchBucket × List ReportMetadata))
    (res : Except DapError (List (ReportId × TransitionFailure)))
    (st' : WorkerState)
    (hc : try_get_task_config st task_id = Except.ok task_config)
    (hs : task_config.batch_span_for_meta part_batch_sel report_meta
      = Except.ok span)
    (hrun : check_early_reject w st task_id part_batch_sel report_meta
      = (res, st')) :
    st'.kv_task_configs = st.kv_task_configs
    ∧ st'.kv_leader_tokens = st.kv_leader_tokens
    ∧ st'.agg_store = st.agg_store
    ∧ ∀ name id, (st'.reports_processed name id = true ↔
        (st.reports_processed name id = true
          ∨ (name, id) ∈ report_store_pairs w task_config.version
              task_id.to_hex span)) := by
  simp only [check_early_reject, hc, hs] at hrun
  obtain ⟨-, rfl⟩ := Prod.mk.injEq .. ▸ And.intro (congrArg Prod.fst hrun)
    (congrArg Prod.snd hrun)
  refine ⟨(mark_aggregated_all_frame _ _).1,
    (mark_aggregated_all_frame _ _).2.1,
    (mark_aggregated_all_frame _ _).2.2, ?_⟩
  intro name id
  rw [mark_aggregated_all_reports_processed]
  rw [Bool.or_eq_true]
  rw [grouped_report_ids_mem]

/-- Example state with the example task stored and all durable stores
empty. -/
def exampleStoredState : WorkerState where
  kv_task_configs := fun t =>
    if t = exampleTaskId then some exampleTaskConfig else none
  kv_leader_tokens := fun _ => none
  agg_store := fun _ => ⟨false⟩
  reports_processed := fun _ _ => false

/-- C3 counterexample: one run of check_early_reject on a single fresh
report changes the ReportsProcessed durable store — the report's id
becomes marked aggregated in its instance, which held nothing before. -/
theorem check_early_reject_not_pure :
    ((check_early_reject exampleWorkerNoCollector exampleStoredState
        exampleTaskId PartialBatchSelector.TimeInterval
        [exampleMetadata]).2).reports_processed
      "reports_processed/v04/0/9" ⟨42⟩ = true
    ∧ exampleStoredState.reports_processed
      "reports_processed/v04/0/9" ⟨42⟩ = false := by
  exact ⟨by decide, rfl⟩

/-- C3 witness for the amended theorem: the same concrete run leaves the
aggregate store unchanged and marks exactly the supplied report id. -/
theorem check_early_reject_state_witness :
    ((check_early_reject exampleWorkerNoCollector exampleStoredState
        exampleTaskId PartialBatchSelector.TimeInterval
        [exampleMetadata]).2).agg_store = exampleStoredState.agg_store
    ∧ (((check_early_reject exampleWorkerNoCollector exampleStoredState
        exampleTaskId PartialBatchSelector.TimeInterval
        [exampleMetadata]).2).reports_processed "reports_processed/v04/0/9"
          ⟨42⟩ = true ↔
        (exampleStoredState.reports_processed "reports_processed/v04/0/9"
          ⟨42⟩ = true
          ∨ ("reports_processed/v04/0/9", (⟨42⟩ : ReportId)) ∈
              report_store_pairs exampleWorkerNoCollector
                DapVersion.Draft04 exampleTaskId.to_hex
                [(DapBatchBucket.TimeInterval 0, [exampleMetadata])])) := by
  have h := check_early_reject_state exampleWorkerNoCollector
    exampleStoredState exampleTaskId PartialBatchSelector.TimeInterval
    [exampleMetadata] exampleTaskConfig
    [(DapBatchBucket.TimeInterval 0, [exampleMetadata])] _ _
    (by simp [try_get_task_config, exampleStoredState]) rfl rfl
  exact ⟨h.2.2.1, h.2.2.2 "reports_processed/v04/0/9" ⟨42⟩⟩
